import Mathlib

/-!
# Tracing configuration glue (package `tracing`)

A shallow embedding of `tracing/tracer.go`, `tracing/honeycomb.go`,
`tracing/jaeger.go` and `tracing/stackdriver.go`.

The package keeps one piece of state of its own, the flag `Configured`, and
talks to the OpenTelemetry SDK, which keeps the global tracer provider.  Both
live in `World`, next to a log of every call that leaves the embedded source
(SDK calls, the `OTLP` methods, and the call of the function value handed to
`Config.TraceProvider`).  What those calls return is given by an `Env` of
functions: theorems quantify over every `Env`.  The one SDK call that can
panic on the values of this model, `otel.SetTracerProvider` refusing its own
default instance, ends in `Exit.panicked`.

Go values that can be `nil` are `Option`s; a Go result pair
`(value, error)` is a pair of `Option`s, so that a factory returning both or
neither is covered.
-/

namespace Tracing

/-! ## Values of the SDK -/

/-- Go `error` values.  `wrapped` is what `fmt.Errorf("<pfx>%w", inner)` builds. -/
inductive GoError where
  | base (msg : String)
  | wrapped (pfx : String) (inner : GoError)
  deriving DecidableEq, Repr

/-- The method `Error()` of a Go error. -/
def GoError.Error : GoError → String
  | .base msg => msg
  | .wrapped pfx inner => pfx ++ inner.Error

/-- A Go `map[string]string`, as the list of its entries. -/
abbrev StringMap := List (String × String)

/-- A value of `attribute.KeyValue` holding a string, as `attribute.String` builds. -/
structure KeyValue where
  key : String
  value : String
  deriving DecidableEq, Repr

/-- The function `attribute.String`. -/
def attribute.String (key value : String) : KeyValue := ⟨key, value⟩

/-- The key `semconv.TelemetrySDKNameKey`. -/
def semconv.TelemetrySDKNameKey : String := "telemetry.sdk.name"
/-- The key `semconv.TelemetrySDKLanguageKey`. -/
def semconv.TelemetrySDKLanguageKey : String := "telemetry.sdk.language"
/-- The key `semconv.ServiceNameKey`. -/
def semconv.ServiceNameKey : String := "service.name"

/-- A `*resource.Resource`, as the call of `resource.NewWithAttributes` that built it. -/
inductive Resource where
  | NewWithAttributes (attrs : List KeyValue)
  deriving DecidableEq, Repr

/-- A non-nil `export.SpanExporter`, as a handle. -/
structure SpanExporter where
  id : Nat
  deriving DecidableEq, Repr

/-- A sampler of `sdktrace`; the package only uses `AlwaysSample()`. -/
inductive Sampler where
  | AlwaysSample
  deriving DecidableEq, Repr

/-- A non-nil `trace.TracerProvider`: the default instance the SDK holds as
global provider until one is registered (`otel.GetTracerProvider()` of a fresh
process; its tracers do nothing), a provider built by
`sdktrace.NewTracerProvider` from its options, or any other implementation a
caller may hand to `ConfigureTraceProvider`, a separate no-op provider
included. -/
inductive TracerProvider where
  | globalDefault
  | sdk (sampler : Sampler) (syncer : Option SpanExporter) (res : Resource)
  | custom (id : Nat)
  deriving DecidableEq, Repr

/-- The function `sdktrace.NewTracerProvider` applied to the three options
`WithSampler`, `WithSyncer` and `WithResource`.  It has no error result and
never returns nil. -/
def sdktrace.NewTracerProvider (sampler : Sampler) (syncer : Option SpanExporter)
    (res : Resource) : TracerProvider :=
  .sdk sampler syncer res

/-- A non-nil `trace.Span`, as a handle. -/
structure Span where
  id : Nat
  deriving DecidableEq, Repr

/-- A `trace.SpanContext`. -/
structure SpanContext where
  traceID : String
  spanID : String
  traceFlags : String
  deriving DecidableEq, Repr

/-- A `context.Context`, as the chain of derivations from `context.Background()`. -/
inductive Context where
  | Background
  | WithValue (parent : Context) (key value : String)
  | WithSpan (parent : Context) (span : Span)
  | WithRemoteSpanContext (parent : Context) (sc : SpanContext)
  deriving DecidableEq, Repr

/-- A non-nil `propagation.TextMapCarrier`, as the entries it holds. -/
abbrev TextMapCarrier := StringMap

/-- A `trace.Link`. -/
structure Link where
  SpanContext : SpanContext
  deriving DecidableEq, Repr

/-- A `trace.SpanOption`; the package only builds `trace.WithLinks`. -/
inductive SpanOption where
  | WithLinks (links : List Link)
  deriving DecidableEq, Repr

/-- Status codes of `go.opentelemetry.io/otel/codes`. -/
inductive Code where
  | Unset
  | Error
  | Ok
  deriving DecidableEq, Repr

/-! ## Configuration records -/

/-- The struct `Honeycomb` (honeycomb.go). -/
structure Honeycomb where
  APIKey : String
  Dataset : String
  deriving DecidableEq, Repr

/-- The struct `Jaeger` (jaeger.go). -/
structure Jaeger where
  Endpoint : String
  Tags : StringMap
  Service : String
  deriving DecidableEq, Repr

/-- The struct `Stackdriver` (stackdriver.go). -/
structure Stackdriver where
  ProjectID : String
  deriving DecidableEq, Repr

/-- Modelled from the spec: the declaration of the struct `OTLP` is outside the
given sources.  Its three fields are the ones the composite literal in
`Honeycomb.Exporter` sets. -/
structure OTLP where
  Address : String
  Headers : StringMap
  UseTLS : Bool
  deriving DecidableEq, Repr

/-- Modelled from the spec: the declaration of `Attrs` is outside the given
sources.  `startSpan` takes its `len` and hands it to `keyValueSlice`, which
`Jaeger.Exporter` applies to a `map[string]string`. -/
abbrev Attrs := StringMap

/-- The struct `Config` (tracer.go). -/
structure Config where
  ServiceName : String
  Attributes : StringMap
  Honeycomb : Honeycomb
  Jaeger : Jaeger
  Stackdriver : Stackdriver
  OTLP : OTLP
  deriving DecidableEq, Repr

/-- The interface `WithSpanContext`: a non-nil value with its method
`SpanContext()`, whose result may be nil. -/
structure WithSpanContext where
  SpanContext : Option TextMapCarrier
  deriving DecidableEq, Repr

/-- The method values `c.Honeycomb.Exporter`, `c.Jaeger.Exporter`,
`c.OTLP.Exporter` and `c.Stackdriver.Exporter` of type
`func() (export.SpanExporter, error)`: the method together with its bound
receiver. -/
inductive ExporterFn where
  | ofHoneycomb (h : Honeycomb)
  | ofJaeger (j : Jaeger)
  | ofOTLP (o : OTLP)
  | ofStackdriver (s : Stackdriver)
  deriving DecidableEq, Repr

/-! ## The world: package state, SDK state, and the calls made -/

/-- A call that leaves the embedded source. -/
inductive Event where
  /-- The call `exporter()` in `Config.TraceProvider` (tracer.go:49). -/
  | exporterInvoked (fn : ExporterFn)
  /-- The body of `OTLP.Exporter` runs on receiver `o`. -/
  | otlpExporter (o : OTLP)
  | jaegerNewRawExporter (endpoint : String) (res : Resource)
  | stackdriverNewExporter (projectID : String)
  | newTracerProvider (sampler : Sampler) (syncer : Option SpanExporter) (res : Resource)
  | setTracerProvider (tp : TracerProvider)
  | getTracerProvider
  | tracer (tp : TracerProvider) (name : String)
  | tracerStart (tp : TracerProvider) (name : String) (ctx : Context)
      (component : String) (opts : List SpanOption)
  | spanSetAttributes (span : Span) (kvs : List KeyValue)
  | spanSetStatus (span : Span) (code : Code) (msg : String)
  | spanEnd (span : Span)
  | spanSpanContext (span : Span)
  | spanFromContext (ctx : Context)
  | extract (ctx : Context) (carrier : TextMapCarrier)
  | inject (ctx : Context) (carrier : TextMapCarrier)
  deriving DecidableEq, Repr

/-- The tracer-provider state of the SDK (`otel/internal/global`): what
`globalTracer` holds and whether `delegateTraceOnce` has fired. -/
inductive GlobalTracer where
  /-- Nothing has been handed to `otel.SetTracerProvider` yet: the default
  instance is in place and `delegateTraceOnce` has not fired. -/
  | initial
  /-- The once `delegateTraceOnce` has fired and `globalTracer` holds `tp`. -/
  | registered (tp : TracerProvider)
  deriving DecidableEq, Repr

/-- How a call ends: it returns a value, or a panic unwinds it. -/
inductive Exit (α : Type) where
  | returned (val : α)
  | panicked
  deriving DecidableEq, Repr

/-- The state the package runs against. -/
structure World where
  /-- The package variable `Configured` (tracer.go:23). -/
  Configured : Bool
  /-- The tracer-provider state of the SDK. -/
  otel : GlobalTracer
  /-- The calls made so far, oldest first. -/
  log : List Event
  deriving DecidableEq, Repr

/-- The tracer provider registered with `otel`, as `otel.GetTracerProvider` reads it. -/
def World.globalProvider (w : World) : TracerProvider :=
  match w.otel with
  | .initial => .globalDefault
  | .registered tp => tp

/-- Record one call. -/
def World.emit (w : World) (e : Event) : World :=
  { w with log := w.log ++ [e] }

/-- What the calls that leave the embedded source return. -/
structure Env where
  /-- The method `OTLP.IsConfigured`, outside the given sources. -/
  otlpIsConfigured : OTLP → Bool
  /-- The result of the method `OTLP.Exporter`, outside the given sources. -/
  otlpExporter : OTLP → Option SpanExporter × Option GoError
  /-- The function `keyValueSlice`, outside the given sources. -/
  keyValueSlice : StringMap → List KeyValue
  /-- The package variable `NoopSpan`, outside the given sources. -/
  NoopSpan : Span
  /-- The result of `jaeger.NewRawExporter` for a collector endpoint and a resource. -/
  jaegerNewRawExporter : String → Resource → Option SpanExporter × Option GoError
  /-- The result of `texporter.NewExporter` for a project id. -/
  stackdriverNewExporter : String → Option SpanExporter × Option GoError
  /-- The result of `Tracer(name).Start(ctx, component, opts...)` on a provider. -/
  tracerStart : TracerProvider → String → Context → String → List SpanOption → Context × Span
  /-- The result of `trace.SpanFromContext`. -/
  spanFromContext : Context → Span
  /-- The result of the method `SpanContext()` of a span. -/
  spanSpanContext : Span → SpanContext
  /-- The result of `propagation.TraceContext.Extract`. -/
  extract : Context → TextMapCarrier → Context
  /-- The carrier after `propagation.TraceContext.Inject`. -/
  inject : Context → TextMapCarrier → TextMapCarrier

/-! ## honeycomb.go, jaeger.go, stackdriver.go -/

/-- The method `Honeycomb.IsConfigured` (honeycomb.go:12). -/
def Honeycomb.IsConfigured (h : Honeycomb) : Bool :=
  h.APIKey != "" && h.Dataset != ""

/-- The method `Jaeger.IsConfigured` (jaeger.go:22). -/
def Jaeger.IsConfigured (j : Jaeger) : Bool :=
  j.Endpoint != ""

/-- The method `Stackdriver.IsConfigured` (stackdriver.go:14). -/
def Stackdriver.IsConfigured (s : Stackdriver) : Bool :=
  s.ProjectID != ""

/-- The method `OTLP.IsConfigured`, outside the given sources. -/
def OTLP.IsConfigured (env : Env) (o : OTLP) : Bool :=
  env.otlpIsConfigured o

/-- The method `OTLP.Exporter`, outside the given sources: its run is
recorded and its result read from the environment. -/
def OTLP.Exporter (env : Env) (o : OTLP) (w : World) :
    (Option SpanExporter × Option GoError) × World :=
  (env.otlpExporter o, w.emit (.otlpExporter o))

/-- The method `Honeycomb.Exporter` (honeycomb.go:16). -/
def Honeycomb.Exporter (env : Env) (h : Honeycomb) (w : World) :
    (Option SpanExporter × Option GoError) × World :=
  OTLP.Exporter env
    { Address := "api.honeycomb.io:443",
      Headers := [("x-honeycomb-team", h.APIKey), ("x-honeycomb-dataset", h.Dataset)],
      UseTLS := true }
    w

/-- The method `Jaeger.Exporter` (jaeger.go:27). -/
def Jaeger.Exporter (env : Env) (j : Jaeger) (w : World) :
    (Option SpanExporter × Option GoError) × World :=
  let attributes := [attribute.String semconv.ServiceNameKey j.Service] ++ env.keyValueSlice j.Tags
  let res := Resource.NewWithAttributes attributes
  let r := env.jaegerNewRawExporter j.Endpoint res
  let w1 := w.emit (.jaegerNewRawExporter j.Endpoint res)
  match r.2 with
  | some err => ((none, some (.wrapped "failed to create jaeger exporter: " err)), w1)
  | none => ((r.1, none), w1)

/-- The method `Stackdriver.Exporter` (stackdriver.go:18). -/
def Stackdriver.Exporter (env : Env) (s : Stackdriver) (w : World) :
    (Option SpanExporter × Option GoError) × World :=
  let r := env.stackdriverNewExporter s.ProjectID
  let w1 := w.emit (.stackdriverNewExporter s.ProjectID)
  match r.2 with
  | some err => ((none, some (.wrapped "failed to create stackdriver exporter: " err)), w1)
  | none => ((r.1, none), w1)

/-- Run the method a method value is bound to. -/
def ExporterFn.run (env : Env) : ExporterFn → World →
    (Option SpanExporter × Option GoError) × World
  | .ofHoneycomb h => h.Exporter env
  | .ofJaeger j => j.Exporter env
  | .ofOTLP o => o.Exporter env
  | .ofStackdriver s => s.Exporter env

/-! ## tracer.go -/

/-- The method `Config.resource` (tracer.go:34).  The map `c.Attributes` is
ranged over in the order of its entries. -/
def Config.resource (c : Config) : Resource :=
  let attributes :=
    [ attribute.String semconv.TelemetrySDKNameKey "opentelemetry",
      attribute.String semconv.TelemetrySDKLanguageKey "go",
      attribute.String semconv.ServiceNameKey c.ServiceName ]
  let attributes := c.Attributes.foldl (fun acc kv => acc ++ [attribute.String kv.1 kv.2]) attributes
  Resource.NewWithAttributes attributes

/-- The function `otel.SetTracerProvider` of the SDK.  The first call runs
the body of `delegateTraceOnce.Do`, which panics when it is handed the default
instance that is still in place ("the global instance cannot be
reinstalled"); the once has fired all the same, and the store that follows is
not reached.  Every other call stores `tp`. -/
def otel.SetTracerProvider (tp : TracerProvider) (w : World) : Exit Unit × World :=
  let w1 := w.emit (.setTracerProvider tp)
  match w1.otel with
  | .initial =>
    if tp = .globalDefault then
      (.panicked, { w1 with otel := .registered .globalDefault })
    else
      (.returned (), { w1 with otel := .registered tp })
  | .registered _ => (.returned (), { w1 with otel := .registered tp })

/-- The function `ConfigureTraceProvider` (tracer.go:220).  A panic of
`otel.SetTracerProvider` unwinds it before `Configured = true`. -/
def ConfigureTraceProvider (tp : TracerProvider) (w : World) : Exit Unit × World :=
  match otel.SetTracerProvider tp w with
  | (.panicked, w1) => (.panicked, w1)
  | (.returned _, w1) => (.returned (), { w1 with Configured := true })

/-- The method `Config.TraceProvider` (tracer.go:48). -/
def Config.TraceProvider (env : Env) (c : Config) (exporter : ExporterFn) (w : World) :
    (Option TracerProvider × Option GoError) × World :=
  let r := exporter.run env (w.emit (.exporterInvoked exporter))
  let exp := r.1.1
  let err := r.1.2
  match err with
  | some e => ((none, some e), r.2)
  | none =>
    let provider := sdktrace.NewTracerProvider .AlwaysSample exp c.resource
    let w2 := r.2.emit (.newTracerProvider .AlwaysSample exp c.resource)
    match err with
    | some e => ((none, some e), w2)
    | none => ((some provider, none), w2)

/-- The method `Config.Prepare` (tracer.go:66). -/
def Config.Prepare (env : Env) (c : Config) (w : World) :
    Exit (Option GoError) × World :=
  let r : (Option TracerProvider × Option GoError) × World :=
    if c.Honeycomb.IsConfigured then c.TraceProvider env (.ofHoneycomb c.Honeycomb) w
    else if c.Jaeger.IsConfigured then c.TraceProvider env (.ofJaeger c.Jaeger) w
    else if c.OTLP.IsConfigured env then c.TraceProvider env (.ofOTLP c.OTLP) w
    else if c.Stackdriver.IsConfigured then c.TraceProvider env (.ofStackdriver c.Stackdriver) w
    else ((none, none), w)
  let provider := r.1.1
  let err := r.1.2
  match err with
  | some e => (.returned (some e), r.2)
  | none =>
    match provider with
    | some p =>
      match ConfigureTraceProvider p r.2 with
      | (.panicked, w1) => (.panicked, w1)
      | (.returned _, w1) => (.returned none, w1)
    | none => (.returned none, r.2)

/-- The function `startSpan` (tracer.go:177). -/
def startSpan (env : Env) (ctx : Context) (component : String) (attrs : Attrs)
    (opts : List SpanOption) (w : World) : (Context × Span) × World :=
  if !w.Configured then
    ((ctx, env.NoopSpan), w)
  else
    let w1 := w.emit .getTracerProvider
    let tp := w1.globalProvider
    let w2 := w1.emit (.tracer tp "concourse")
    let r := env.tracerStart tp "concourse" ctx component opts
    let w3 := w2.emit (.tracerStart tp "concourse" ctx component opts)
    let ctx := r.1
    let span := r.2
    if attrs.length != 0 then
      ((ctx, span), w3.emit (.spanSetAttributes span (env.keyValueSlice attrs)))
    else
      ((ctx, span), w3)

/-- The function `StartSpan` (tracer.go:124). -/
def StartSpan (env : Env) (ctx : Context) (component : String) (attrs : Attrs)
    (w : World) : (Context × Span) × World :=
  startSpan env ctx component attrs [] w

/-- The function `FromContext` (tracer.go:132). -/
def FromContext (env : Env) (ctx : Context) (w : World) : Span × World :=
  (env.spanFromContext ctx, w.emit (.spanFromContext ctx))

/-- The function `Inject` (tracer.go:136); the carrier is written in place,
so its new content is the result. -/
def Inject (env : Env) (ctx : Context) (carrier : TextMapCarrier) (w : World) :
    TextMapCarrier × World :=
  (env.inject ctx carrier, w.emit (.inject ctx carrier))

/-- The function `StartSpanFollowing` (tracer.go:144). -/
def StartSpanFollowing (env : Env) (ctx : Context) (following : WithSpanContext)
    (component : String) (attrs : Attrs) (w : World) : (Context × Span) × World :=
  match following.SpanContext with
  | some supplier =>
    startSpan env (env.extract ctx supplier) component attrs []
      (w.emit (.extract ctx supplier))
  | none => startSpan env ctx component attrs [] w

/-- The function `StartSpanLinkedToFollowing` (tracer.go:157). -/
def StartSpanLinkedToFollowing (env : Env) (linked : Context) (following : WithSpanContext)
    (component : String) (attrs : Attrs) (w : World) : (Context × Span) × World :=
  let ctx := Context.Background
  let r : Context × World :=
    match following.SpanContext with
    | some supplier => (env.extract ctx supplier, w.emit (.extract ctx supplier))
    | none => (ctx, w)
  let ctx := r.1
  let w1 := r.2
  let linkedSpan := env.spanFromContext linked
  let w2 := w1.emit (.spanFromContext linked)
  let linkedSpanContext := env.spanSpanContext linkedSpan
  let w3 := w2.emit (.spanSpanContext linkedSpan)
  startSpan env ctx component attrs [.WithLinks [{ SpanContext := linkedSpanContext }]] w3

/-- The function `End` (tracer.go:200). -/
def End (span : Span) (err : Option GoError) (w : World) : World :=
  if !w.Configured then
    w
  else
    let w1 :=
      match err with
      | some e =>
        (w.emit (.spanSetStatus span .Error "")).emit
          (.spanSetAttributes span [attribute.String "error-message" e.Error])
      | none => w
    w1.emit (.spanEnd span)

/-! ## Vocabulary of the statements -/

/-- The four backend fields of a `Config` in the priority order Honeycomb,
Jaeger, OTLP, Stackdriver, each with the value of its `IsConfigured` and its
`Exporter` method value. -/
def Config.backends (env : Env) (c : Config) : List (Bool × ExporterFn) :=
  [ (c.Honeycomb.IsConfigured, .ofHoneycomb c.Honeycomb),
    (c.Jaeger.IsConfigured, .ofJaeger c.Jaeger),
    (c.OTLP.IsConfigured env, .ofOTLP c.OTLP),
    (c.Stackdriver.IsConfigured, .ofStackdriver c.Stackdriver) ]

/-- The exporter factory of the first backend, in priority order, whose
`IsConfigured` is true. -/
def Config.firstConfigured (env : Env) (c : Config) : Option ExporterFn :=
  ((c.backends env).find? (fun b => b.1)).map (fun b => b.2)

/-- At least one backend of the `Config` is configured. -/
def Config.anyConfigured (env : Env) (c : Config) : Bool :=
  (c.backends env).any (fun b => b.1)

/-- The function values called at `exporter()` in `Config.TraceProvider`, in order. -/
def invokedFactories (log : List Event) : List ExporterFn :=
  log.filterMap (fun e => match e with
    | .exporterInvoked fn => some fn
    | _ => none)

/-- The event is a call made by the body of an exporter factory: the run of
`OTLP.Exporter` (reached from `c.OTLP.Exporter` or from
`Honeycomb.Exporter`), `jaeger.NewRawExporter` (`Jaeger.Exporter`), or
`texporter.NewExporter` (`Stackdriver.Exporter`). -/
def Event.isFactoryCall : Event → Bool
  | .otlpExporter _ => true
  | .jaegerNewRawExporter _ _ => true
  | .stackdriverNewExporter _ => true
  | _ => false

/-- The calls made by the bodies of exporter factories, in order. -/
def factoryCalls (log : List Event) : List Event :=
  log.filter Event.isFactoryCall

/-- The calls the body of one exporter factory makes when it is run once. -/
def ExporterFn.bodyCalls (env : Env) : ExporterFn → List Event
  | .ofHoneycomb h =>
    [.otlpExporter
      { Address := "api.honeycomb.io:443",
        Headers := [("x-honeycomb-team", h.APIKey), ("x-honeycomb-dataset", h.Dataset)],
        UseTLS := true }]
  | .ofJaeger j =>
    [.jaegerNewRawExporter j.Endpoint
      (Resource.NewWithAttributes
        ([attribute.String semconv.ServiceNameKey j.Service] ++ env.keyValueSlice j.Tags))]
  | .ofOTLP o => [.otlpExporter o]
  | .ofStackdriver s => [.stackdriverNewExporter s.ProjectID]

/-- The receivers on which the body of `OTLP.Exporter` ran, in order. -/
def otlpBodyRuns (log : List Event) : List OTLP :=
  log.filterMap (fun e => match e with
    | .otlpExporter o => some o
    | _ => none)

/-- The receivers on which calling a method value runs the body of
`OTLP.Exporter`: its own for `c.OTLP.Exporter`, the composite literal of
honeycomb.go:17 for `c.Honeycomb.Exporter`, none for the other two. -/
def ExporterFn.otlpReceivers : ExporterFn → List OTLP
  | .ofHoneycomb h =>
    [{ Address := "api.honeycomb.io:443",
       Headers := [("x-honeycomb-team", h.APIKey), ("x-honeycomb-dataset", h.Dataset)],
       UseTLS := true }]
  | .ofOTLP o => [o]
  | .ofJaeger _ => []
  | .ofStackdriver _ => []

/-- The providers handed to `otel.SetTracerProvider`, in order. -/
def registeredProviders (log : List Event) : List TracerProvider :=
  log.filterMap (fun e => match e with
    | .setTracerProvider tp => some tp
    | _ => none)

/-- The event asks the global tracer provider for a tracer or starts a span on it. -/
def Event.usesTracerProvider : Event → Bool
  | .getTracerProvider => true
  | .tracer _ _ => true
  | .tracerStart _ _ _ _ _ => true
  | _ => false

/-- The configuration the spec gives for the Honeycomb backend: address
`api.honeycomb.io:443`, TLS on, and the two headers `x-honeycomb-team` and
`x-honeycomb-dataset`. -/
def honeycombOTLP (h : Honeycomb) : OTLP :=
  { Address := "api.honeycomb.io:443",
    UseTLS := true,
    Headers := [("x-honeycomb-team", h.APIKey), ("x-honeycomb-dataset", h.Dataset)] }

/-- An operation of the package, with its arguments. -/
inductive Op where
  | Prepare (c : Config)
  | TraceProvider (c : Config) (exporter : ExporterFn)
  | ConfigureTraceProvider (tp : TracerProvider)
  | StartSpan (ctx : Context) (component : String) (attrs : Attrs)
  | StartSpanFollowing (ctx : Context) (following : WithSpanContext)
      (component : String) (attrs : Attrs)
  | StartSpanLinkedToFollowing (linked : Context) (following : WithSpanContext)
      (component : String) (attrs : Attrs)
  | End (span : Span) (err : Option GoError)
  | Inject (ctx : Context) (carrier : TextMapCarrier)
  | FromContext (ctx : Context)
  deriving DecidableEq, Repr

/-- The world after one operation, whether it returned or panicked. -/
def Op.step (env : Env) : Op → World → World
  | .Prepare c, w => (c.Prepare env w).2
  | .TraceProvider c exporter, w => (c.TraceProvider env exporter w).2
  | .ConfigureTraceProvider tp, w => (Tracing.ConfigureTraceProvider tp w).2
  | .StartSpan ctx component attrs, w => (Tracing.StartSpan env ctx component attrs w).2
  | .StartSpanFollowing ctx following component attrs, w =>
    (Tracing.StartSpanFollowing env ctx following component attrs w).2
  | .StartSpanLinkedToFollowing linked following component attrs, w =>
    (Tracing.StartSpanLinkedToFollowing env linked following component attrs w).2
  | .End span err, w => Tracing.End span err w
  | .Inject ctx carrier, w => (Tracing.Inject env ctx carrier w).2
  | .FromContext ctx, w => (Tracing.FromContext env ctx w).2

/-- The world after a sequence of operations, first to last. -/
def run (env : Env) (ops : List Op) (w : World) : World :=
  ops.foldl (fun acc op => op.step env acc) w

/-! ## A concrete environment, for instances of the statements -/

/-- A lower-case hexadecimal digit. -/
def isLowerHex (ch : Char) : Bool :=
  ('0' ≤ ch && ch ≤ '9') || ('a' ≤ ch && ch ≤ 'f')

/-- A stand-in for the reading of a version-00 W3C `traceparent` header by
`propagation.TraceContext`: `vv-<32 hex>-<16 hex>-<2 hex>`, with a trace id and
a span id that are not all zero. -/
def parseTraceparent (h : String) : Option SpanContext :=
  let cs := h.toList
  let ver := cs.take 2
  let tid := (cs.drop 3).take 32
  let sid := (cs.drop 36).take 16
  let fl := (cs.drop 53).take 2
  if cs.length = 55 && cs.get? 2 == some '-' && cs.get? 35 == some '-'
      && cs.get? 52 == some '-' && (ver ++ tid ++ sid ++ fl).all isLowerHex
      && ver == ['0', '0'] && tid.any (fun ch => ch != '0') && sid.any (fun ch => ch != '0')
  then some ⟨String.mk tid, String.mk sid, String.mk fl⟩
  else none

/-- A stand-in for `propagation.TraceContext.Extract`: the context is
returned as it is unless the carrier holds a valid `traceparent`, in which
case the remote span context is attached to it. -/
def sampleExtract (ctx : Context) (carrier : TextMapCarrier) : Context :=
  match carrier.lookup "traceparent" with
  | none => ctx
  | some h =>
    match parseTraceparent h with
    | none => ctx
    | some sc => .WithRemoteSpanContext ctx sc

/-- A stand-in for `trace.SpanFromContext`: the innermost span of the
context, the no-op span (handle 0) when there is none. -/
def sampleSpanFromContext : Context → Span
  | .Background => ⟨0⟩
  | .WithValue parent _ _ => sampleSpanFromContext parent
  | .WithSpan _ span => span
  | .WithRemoteSpanContext _ _ => ⟨1⟩

/-- A concrete environment: the OTLP backend is configured by its address,
OTLP and Stackdriver exporters are built, the Jaeger exporter fails. -/
def sampleEnv : Env where
  otlpIsConfigured := fun o => o.Address != ""
  otlpExporter := fun _ => (some ⟨1⟩, none)
  keyValueSlice := fun m => m.map (fun kv => attribute.String kv.1 kv.2)
  NoopSpan := ⟨0⟩
  jaegerNewRawExporter := fun _ _ => (none, some (.base "collector endpoint unreachable"))
  stackdriverNewExporter := fun _ => (some ⟨3⟩, none)
  tracerStart := fun _ _ ctx _ _ => (.WithSpan ctx ⟨7⟩, ⟨7⟩)
  spanFromContext := sampleSpanFromContext
  spanSpanContext := fun _ => ⟨"", "", ""⟩
  extract := sampleExtract
  inject := fun _ carrier => carrier

/-- A world in which tracing has not been configured. -/
def freshWorld : World := { Configured := false, otel := .initial, log := [] }

/-- A world in which a provider has been configured. -/
def configuredWorld : World := (ConfigureTraceProvider (.custom 1) freshWorld).2

/-- A `Config` with the Honeycomb and the Stackdriver backends configured. -/
def sampleConfig : Config :=
  { ServiceName := "concourse-web",
    Attributes := [],
    Honeycomb := { APIKey := "key", Dataset := "builds" },
    Jaeger := { Endpoint := "", Tags := [], Service := "web" },
    Stackdriver := { ProjectID := "project" },
    OTLP := { Address := "", Headers := [], UseTLS := false } }

/-- A `Config` with the Jaeger and the Stackdriver backends configured. -/
def jaegerConfig : Config :=
  { sampleConfig with
    Honeycomb := { APIKey := "key", Dataset := "" },
    Jaeger := { Endpoint := "http://jaeger:14268/api/traces", Tags := [], Service := "web" } }

/-- A `Config` with no backend configured: Honeycomb lacks its dataset. -/
def noBackendConfig : Config :=
  { sampleConfig with
    Honeycomb := { APIKey := "key", Dataset := "" },
    Stackdriver := { ProjectID := "" } }

/-- A value whose `SpanContext()` carries the `traceparent` of a remote span. -/
def sampleFollowing : WithSpanContext :=
  { SpanContext :=
      some [("traceparent", "00-4bf92f3577b34da6a3ce929d0e0e4736-00f067aa0ba902b7-01")] }

/-! ## Calls only append to the log -/

theorem ExporterFn.run_world (env : Env) (fn : ExporterFn) (w : World) :
    (fn.run env w).2 = { w with log := w.log ++ fn.bodyCalls env } := by
  cases fn with
  | ofHoneycomb h => rfl
  | ofJaeger j =>
    simp only [ExporterFn.run, Jaeger.Exporter]
    split <;> rfl
  | ofOTLP o => rfl
  | ofStackdriver s =>
    simp only [ExporterFn.run, Stackdriver.Exporter]
    split <;> rfl

theorem ExporterFn.run_result (env : Env) (fn : ExporterFn) (w w2 : World) :
    (fn.run env w).1 = (fn.run env w2).1 := by
  cases fn with
  | ofHoneycomb h => rfl
  | ofJaeger j =>
    simp only [ExporterFn.run, Jaeger.Exporter]
    split <;> rfl
  | ofOTLP o => rfl
  | ofStackdriver s =>
    simp only [ExporterFn.run, Stackdriver.Exporter]
    split <;> rfl

theorem invokedFactories_append (a b : List Event) :
    invokedFactories (a ++ b) = invokedFactories a ++ invokedFactories b := by
  simp [invokedFactories, List.filterMap_append]

theorem registeredProviders_append (a b : List Event) :
    registeredProviders (a ++ b) = registeredProviders a ++ registeredProviders b := by
  simp [registeredProviders, List.filterMap_append]

theorem otlpBodyRuns_append (a b : List Event) :
    otlpBodyRuns (a ++ b) = otlpBodyRuns a ++ otlpBodyRuns b := by
  simp [otlpBodyRuns, List.filterMap_append]

theorem factoryCalls_append (a b : List Event) :
    factoryCalls (a ++ b) = factoryCalls a ++ factoryCalls b := by
  simp [factoryCalls, List.filter_append]

theorem ExporterFn.bodyCalls_invoked (env : Env) (fn : ExporterFn) :
    invokedFactories (fn.bodyCalls env) = [] := by
  cases fn <;> rfl

theorem ExporterFn.bodyCalls_registered (env : Env) (fn : ExporterFn) :
    registeredProviders (fn.bodyCalls env) = [] := by
  cases fn <;> rfl

theorem ExporterFn.bodyCalls_otlp (env : Env) (fn : ExporterFn) :
    otlpBodyRuns (fn.bodyCalls env) = fn.otlpReceivers := by
  cases fn <;> rfl

theorem ExporterFn.bodyCalls_factoryCalls (env : Env) (fn : ExporterFn) :
    factoryCalls (fn.bodyCalls env) = fn.bodyCalls env := by
  cases fn <;> rfl

/-- The calls `Config.TraceProvider` adds after the factory has run: the
provider is built when the factory returned no error. -/
theorem Config.TraceProvider_spec (env : Env) (c : Config) (fn : ExporterFn) (w : World) :
    c.TraceProvider env fn w =
      (match (fn.run env w).1.2 with
       | some e =>
         ((none, some e), { w with log := w.log ++ .exporterInvoked fn :: fn.bodyCalls env })
       | none =>
         ((some (.sdk .AlwaysSample (fn.run env w).1.1 c.resource), none),
          { w with log := w.log ++ .exporterInvoked fn :: (fn.bodyCalls env ++
              [.newTracerProvider .AlwaysSample (fn.run env w).1.1 c.resource]) })) := by
  have hres := ExporterFn.run_result env fn (w.emit (.exporterInvoked fn)) w
  have hw := ExporterFn.run_world env fn (w.emit (.exporterInvoked fn))
  unfold Config.TraceProvider
  simp only [hres, hw]
  cases (fn.run env w).1.2 with
  | some e => simp [World.emit]
  | none => simp [World.emit, sdktrace.NewTracerProvider]

/-- Outside the one case the SDK refuses, `ConfigureTraceProvider` returns
with the provider registered and the flag set. -/
theorem ConfigureTraceProvider_returns (tp : TracerProvider) (w : World)
    (h : ¬ (w.otel = .initial ∧ tp = .globalDefault)) :
    ConfigureTraceProvider tp w =
      (.returned (),
       { Configured := true, otel := .registered tp,
         log := w.log ++ [.setTracerProvider tp] }) := by
  unfold ConfigureTraceProvider otel.SetTracerProvider
  cases ho : w.otel with
  | initial =>
    have hne : tp ≠ .globalDefault := fun ht => h ⟨ho, ht⟩
    simp [World.emit, ho, hne]
  | registered p => simp [World.emit, ho]

/-- In the case the SDK refuses, `ConfigureTraceProvider` panics and
`Configured` is not written. -/
theorem ConfigureTraceProvider_panics (w : World) (h : w.otel = .initial) :
    ConfigureTraceProvider .globalDefault w =
      (.panicked,
       { Configured := w.Configured, otel := .registered .globalDefault,
         log := w.log ++ [.setTracerProvider .globalDefault] }) := by
  unfold ConfigureTraceProvider otel.SetTracerProvider
  simp [World.emit, h]

theorem Config.firstConfigured_mem (env : Env) (c : Config) (fn : ExporterFn)
    (h : c.firstConfigured env = some fn) : (true, fn) ∈ c.backends env := by
  unfold Config.firstConfigured at h
  cases hf : (c.backends env).find? (fun b => b.1) with
  | none => simp [hf] at h
  | some b =>
    have hm := List.mem_of_find?_eq_some hf
    have hp := List.find?_some hf
    obtain ⟨b1, b2⟩ := b
    simp only at hp
    subst hp
    simp only [hf, Option.map_some', Option.some.injEq] at h
    subst h
    exact hm

theorem Config.firstConfigured_isSome (env : Env) (c : Config)
    (h : c.anyConfigured env = true) : ∃ fn, c.firstConfigured env = some fn := by
  unfold Config.anyConfigured at h
  unfold Config.firstConfigured
  rw [List.any_eq_true] at h
  obtain ⟨b, hb, hb1⟩ := h
  cases hf : (c.backends env).find? (fun b => b.1) with
  | none =>
    rw [List.find?_eq_none] at hf
    exact absurd hb1 (hf b hb)
  | some b2 => exact ⟨b2.2, rfl⟩

theorem Config.anyConfigured_iff (env : Env) (c : Config) :
    c.anyConfigured env = true ↔
      (c.Honeycomb.IsConfigured = true ∨ c.Jaeger.IsConfigured = true ∨
        c.OTLP.IsConfigured env = true ∨ c.Stackdriver.IsConfigured = true) := by
  simp [Config.anyConfigured, Config.backends]

/-- The `switch` of `Config.Prepare` picks the first configured backend in
the priority order, and none when no backend is configured. -/
theorem Config.Prepare_eq (env : Env) (c : Config) (w : World) :
    c.Prepare env w =
      (match c.firstConfigured env with
       | none => (.returned none, w)
       | some fn =>
         match (c.TraceProvider env fn w).1.2 with
         | some e => (.returned (some e), (c.TraceProvider env fn w).2)
         | none =>
           match (c.TraceProvider env fn w).1.1 with
           | some p =>
             match ConfigureTraceProvider p (c.TraceProvider env fn w).2 with
             | (.panicked, w1) => (.panicked, w1)
             | (.returned _, w1) => (.returned none, w1)
           | none => (.returned none, (c.TraceProvider env fn w).2)) := by
  unfold Config.Prepare Config.firstConfigured Config.backends
  by_cases h1 : c.Honeycomb.IsConfigured = true
  · simp [h1]
  · by_cases h2 : c.Jaeger.IsConfigured = true
    · simp [h1, h2]
    · by_cases h3 : c.OTLP.IsConfigured env = true
      · simp [h1, h2, h3]
      · by_cases h4 : c.Stackdriver.IsConfigured = true
        · simp [h1, h2, h3, h4]
        · simp [h1, h2, h3, h4]

/-- What `Config.Prepare` does once a backend is selected: the whole result
and the whole world, by the error of the selected factory. -/
theorem Config.Prepare_selected (env : Env) (c : Config) (w : World) (fn : ExporterFn)
    (hsel : c.firstConfigured env = some fn) :
    c.Prepare env w =
      (match (fn.run env w).1.2 with
       | some e =>
         (.returned (some e),
          { w with log := w.log ++ .exporterInvoked fn :: fn.bodyCalls env })
       | none =>
         (.returned none,
          { Configured := true,
            otel := .registered (.sdk .AlwaysSample (fn.run env w).1.1 c.resource),
            log := w.log ++ .exporterInvoked fn :: (fn.bodyCalls env ++
              [.newTracerProvider .AlwaysSample (fn.run env w).1.1 c.resource,
               .setTracerProvider (.sdk .AlwaysSample (fn.run env w).1.1 c.resource)]) })) := by
  rw [Config.Prepare_eq, hsel]
  simp only
  rw [Config.TraceProvider_spec]
  cases (fn.run env w).1.2 with
  | some e => rfl
  | none =>
    simp only
    rw [ConfigureTraceProvider_returns _ _ (fun h => TracerProvider.noConfusion h.2)]
    simp

theorem startSpan_Configured (env : Env) (ctx : Context) (component : String)
    (attrs : Attrs) (opts : List SpanOption) (w : World) :
    (startSpan env ctx component attrs opts w).2.Configured = w.Configured := by
  unfold startSpan
  cases hc : w.Configured with
  | false => simp [hc]
  | true =>
    by_cases hl : attrs.length = 0
    · simp [hl, World.emit, hc]
    · simp [hl, World.emit, hc]

theorem Config.TraceProvider_Configured (env : Env) (c : Config) (fn : ExporterFn)
    (w : World) : (c.TraceProvider env fn w).2.Configured = w.Configured := by
  rw [Config.TraceProvider_spec]
  cases (fn.run env w).1.2 <;> rfl

theorem ConfigureTraceProvider_Configured (tp : TracerProvider) (w : World)
    (h : w.Configured = true) : (ConfigureTraceProvider tp w).2.Configured = true := by
  by_cases hc : w.otel = .initial ∧ tp = .globalDefault
  · obtain ⟨ho, ht⟩ := hc
    subst ht
    rw [ConfigureTraceProvider_panics w ho]
    exact h
  · rw [ConfigureTraceProvider_returns tp w hc]

theorem Config.Prepare_Configured (env : Env) (c : Config) (w : World)
    (h : w.Configured = true) : (c.Prepare env w).2.Configured = true := by
  cases hsel : c.firstConfigured env with
  | none =>
    rw [Config.Prepare_eq, hsel]
    exact h
  | some fn =>
    rw [Config.Prepare_selected env c w fn hsel]
    cases (fn.run env w).1.2 with
    | some e => exact h
    | none => rfl

theorem Op.step_Configured (env : Env) (op : Op) (w : World) (h : w.Configured = true) :
    (op.step env w).Configured = true := by
  cases op with
  | Prepare c => exact Config.Prepare_Configured env c w h
  | TraceProvider c exporter =>
    simp only [Op.step]
    rw [Config.TraceProvider_Configured]
    exact h
  | ConfigureTraceProvider tp => exact ConfigureTraceProvider_Configured tp w h
  | StartSpan ctx component attrs =>
    simp only [Op.step, Tracing.StartSpan]
    rw [startSpan_Configured]
    exact h
  | StartSpanFollowing ctx following component attrs =>
    simp only [Op.step, Tracing.StartSpanFollowing]
    cases following.SpanContext with
    | none =>
      simp only
      rw [startSpan_Configured]
      exact h
    | some supplier =>
      simp only
      rw [startSpan_Configured]
      exact h
  | StartSpanLinkedToFollowing linked following component attrs =>
    simp only [Op.step, Tracing.StartSpanLinkedToFollowing]
    rw [startSpan_Configured]
    cases following.SpanContext with
    | none => exact h
    | some supplier => exact h
  | End span err =>
    cases err <;> simp [Op.step, Tracing.End, h, World.emit]
  | Inject ctx carrier => exact h
  | FromContext ctx => exact h

theorem run_Configured (env : Env) (ops : List Op) :
    ∀ w : World, w.Configured = true → (run env ops w).Configured = true := by
  induction ops with
  | nil =>
    intro w h
    exact h
  | cons op rest ih =>
    intro w h
    exact ih (op.step env w) (Op.step_Configured env op w h)

/-! ## The claims -/

/-- C6: each backend is configured exactly when its required fields are
populated.  `Honeycomb.IsConfigured` holds iff both `APIKey` and `Dataset`
are non-empty; `Jaeger.IsConfigured` holds iff `Endpoint` is non-empty,
whatever `Tags` and `Service` are; `Stackdriver.IsConfigured` holds iff
`ProjectID` is non-empty. -/
theorem C6_isConfigured_iff_fields (h : Honeycomb) (j : Jaeger) (s : Stackdriver) :
    (h.IsConfigured = true ↔ h.APIKey ≠ "" ∧ h.Dataset ≠ "") ∧
    (j.IsConfigured = true ↔ j.Endpoint ≠ "") ∧
    (∀ (tags : StringMap) (service : String),
      Jaeger.IsConfigured { Endpoint := j.Endpoint, Tags := tags, Service := service }
        = j.IsConfigured) ∧
    (s.IsConfigured = true ↔ s.ProjectID ≠ "") := by
  refine ⟨?_, ?_, ?_, ?_⟩
  · simp [Honeycomb.IsConfigured]
  · simp [Jaeger.IsConfigured]
  · intro tags service
    rfl
  · simp [Stackdriver.IsConfigured]

/-- C9: for every Honeycomb value `h`, `h.Exporter()` is the OTLP exporter
factory run on one OTLP configuration: result (exporter and error) and calls
made are the same.  That configuration has Address `api.honeycomb.io:443`,
UseTLS true, and a Headers map of exactly two entries, `x-honeycomb-team`
bound to `h.APIKey` and `x-honeycomb-dataset` bound to `h.Dataset`. -/
theorem C9_honeycomb_exporter_is_otlp (env : Env) (h : Honeycomb) (w : World) :
    h.Exporter env w = (honeycombOTLP h).Exporter env w ∧
    (h.Exporter env w).1 = env.otlpExporter (honeycombOTLP h) ∧
    (honeycombOTLP h).Address = "api.honeycomb.io:443" ∧
    (honeycombOTLP h).UseTLS = true ∧
    (honeycombOTLP h).Headers.length = 2 ∧
    (honeycombOTLP h).Headers.lookup "x-honeycomb-team" = some h.APIKey ∧
    (honeycombOTLP h).Headers.lookup "x-honeycomb-dataset" = some h.Dataset ∧
    (∀ k : String, k ≠ "x-honeycomb-team" → k ≠ "x-honeycomb-dataset" →
      (honeycombOTLP h).Headers.lookup k = none) := by
  refine ⟨rfl, rfl, rfl, rfl, rfl, ?_, ?_, ?_⟩
  · simp [honeycombOTLP, List.lookup]
  · have hne : ("x-honeycomb-dataset" == "x-honeycomb-team") = false := by decide
    simp [honeycombOTLP, List.lookup, hne]
  · intro k h1 h2
    have e1 : (k == "x-honeycomb-team") = false := by simpa using h1
    have e2 : (k == "x-honeycomb-dataset") = false := by simpa using h2
    simp [honeycombOTLP, List.lookup, e1, e2]

/-- C8: when no backend of the Config is configured, `Config.Prepare`
returns nil and leaves the world as it found it: no call is added to the log
(so no exporter factory is invoked and no tracer provider is registered), and
`Configured` and the global tracer provider keep their values. -/
theorem C8_prepare_without_backend (env : Env) (c : Config) (w : World)
    (h1 : c.Honeycomb.IsConfigured = false) (h2 : c.Jaeger.IsConfigured = false)
    (h3 : c.OTLP.IsConfigured env = false) (h4 : c.Stackdriver.IsConfigured = false) :
    (c.Prepare env w).1 = .returned none ∧
    (c.Prepare env w).2.log = w.log ∧
    invokedFactories (c.Prepare env w).2.log = invokedFactories w.log ∧
    registeredProviders (c.Prepare env w).2.log = registeredProviders w.log ∧
    (c.Prepare env w).2.globalProvider = w.globalProvider ∧
    (c.Prepare env w).2.Configured = w.Configured := by
  have hp : c.Prepare env w = (.returned none, w) := by
    simp [Config.Prepare, h1, h2, h3, h4]
  rw [hp]
  exact ⟨rfl, rfl, rfl, rfl, rfl, rfl⟩

/-- An instance of C8: a Config whose Honeycomb has a key but no dataset and whose other backends are empty. -/
theorem C8_prepare_without_backend_witness :
    (noBackendConfig.Honeycomb.IsConfigured = false ∧
      noBackendConfig.Jaeger.IsConfigured = false ∧
      noBackendConfig.OTLP.IsConfigured sampleEnv = false ∧
      noBackendConfig.Stackdriver.IsConfigured = false) ∧
    (noBackendConfig.Prepare sampleEnv freshWorld).1 = .returned none ∧
    (noBackendConfig.Prepare sampleEnv freshWorld).2.log = freshWorld.log ∧
    invokedFactories (noBackendConfig.Prepare sampleEnv freshWorld).2.log
      = invokedFactories freshWorld.log ∧
    registeredProviders (noBackendConfig.Prepare sampleEnv freshWorld).2.log
      = registeredProviders freshWorld.log ∧
    (noBackendConfig.Prepare sampleEnv freshWorld).2.globalProvider
      = freshWorld.globalProvider ∧
    (noBackendConfig.Prepare sampleEnv freshWorld).2.Configured = freshWorld.Configured :=
  ⟨⟨by decide, by decide, by decide, by decide⟩,
    C8_prepare_without_backend sampleEnv noBackendConfig freshWorld
      (by decide) (by decide) (by decide) (by decide)⟩

/-- C1: for every Config with at least one backend configured,
`Config.Prepare` invokes exactly one exporter factory, the `Exporter` of the
first backend in the order Honeycomb, Jaeger, OTLP, Stackdriver whose
`IsConfigured` is true; the `Exporter` of every other backend field of the
Config is not invoked, configured or not.  In the calls `Prepare` adds to the
log: `exporter()` is called once, on the selected method value, and on no
other backend field; the calls made by factory bodies are exactly those of
the selected factory run once, so `jaeger.NewRawExporter` is called only when
`c.Jaeger.Exporter` is the selected one, `texporter.NewExporter` only when
`c.Stackdriver.Exporter` is, and the body of `OTLP.Exporter` runs only on the
receiver of `c.OTLP.Exporter` when that is selected or on the literal of
honeycomb.go:17 when `c.Honeycomb.Exporter` is, which delegates to it.  The
last part gives the added calls in full. -/
theorem C1_prepare_invokes_first_configured (env : Env) (c : Config) (w : World)
    (h : c.Honeycomb.IsConfigured = true ∨ c.Jaeger.IsConfigured = true ∨
      c.OTLP.IsConfigured env = true ∨ c.Stackdriver.IsConfigured = true) :
    ∃ fn new, c.firstConfigured env = some fn ∧
      (c.Prepare env w).2.log = w.log ++ new ∧
      invokedFactories new = [fn] ∧
      (∀ b ∈ c.backends env, b.2 ≠ fn → b.2 ∉ invokedFactories new) ∧
      factoryCalls new = fn.bodyCalls env ∧
      (∀ endpoint res, Event.jaegerNewRawExporter endpoint res ∈ new →
        fn = .ofJaeger c.Jaeger) ∧
      (∀ projectID, Event.stackdriverNewExporter projectID ∈ new →
        fn = .ofStackdriver c.Stackdriver) ∧
      otlpBodyRuns new = fn.otlpReceivers ∧
      new = .exporterInvoked fn :: (fn.bodyCalls env ++
        (match (fn.run env w).1.2 with
         | some _ => []
         | none =>
           [.newTracerProvider .AlwaysSample (fn.run env w).1.1 c.resource,
            .setTracerProvider
              (sdktrace.NewTracerProvider .AlwaysSample (fn.run env w).1.1 c.resource)])) := by
  obtain ⟨fn, hfn⟩ := Config.firstConfigured_isSome env c
    ((Config.anyConfigured_iff env c).mpr h)
  have hmem := Config.firstConfigured_mem env c fn hfn
  have hlog : (c.Prepare env w).2.log = w.log ++ (.exporterInvoked fn :: (fn.bodyCalls env ++
      (match (fn.run env w).1.2 with
       | some _ => []
       | none =>
         [.newTracerProvider .AlwaysSample (fn.run env w).1.1 c.resource,
          .setTracerProvider
            (sdktrace.NewTracerProvider .AlwaysSample (fn.run env w).1.1 c.resource)]))) := by
    rw [Config.Prepare_selected env c w fn hfn]
    cases (fn.run env w).1.2 with
    | some e => simp
    | none => simp [sdktrace.NewTracerProvider]
  have hinv : ∀ tail : List Event, invokedFactories tail = [] →
      invokedFactories (.exporterInvoked fn :: (fn.bodyCalls env ++ tail)) = [fn] := by
    intro tail ht
    rw [show Event.exporterInvoked fn :: (fn.bodyCalls env ++ tail)
        = [Event.exporterInvoked fn] ++ (fn.bodyCalls env ++ tail) from rfl,
      invokedFactories_append, invokedFactories_append, ExporterFn.bodyCalls_invoked, ht]
    rfl
  have hfac : ∀ tail : List Event, factoryCalls tail = [] →
      factoryCalls (.exporterInvoked fn :: (fn.bodyCalls env ++ tail)) = fn.bodyCalls env := by
    intro tail ht
    rw [show Event.exporterInvoked fn :: (fn.bodyCalls env ++ tail)
        = [Event.exporterInvoked fn] ++ (fn.bodyCalls env ++ tail) from rfl,
      factoryCalls_append, factoryCalls_append, ExporterFn.bodyCalls_factoryCalls, ht]
    simp [factoryCalls, Event.isFactoryCall]
  have hotlp : ∀ tail : List Event, otlpBodyRuns tail = [] →
      otlpBodyRuns (.exporterInvoked fn :: (fn.bodyCalls env ++ tail)) = fn.otlpReceivers := by
    intro tail ht
    rw [show Event.exporterInvoked fn :: (fn.bodyCalls env ++ tail)
        = [Event.exporterInvoked fn] ++ (fn.bodyCalls env ++ tail) from rfl,
      otlpBodyRuns_append, otlpBodyRuns_append, ExporterFn.bodyCalls_otlp, ht]
    simp [otlpBodyRuns]
  have htail : invokedFactories (match (fn.run env w).1.2 with
       | some _ => []
       | none =>
         [Event.newTracerProvider .AlwaysSample (fn.run env w).1.1 c.resource,
          Event.setTracerProvider
            (sdktrace.NewTracerProvider .AlwaysSample (fn.run env w).1.1 c.resource)]) = [] ∧
      factoryCalls (match (fn.run env w).1.2 with
       | some _ => []
       | none =>
         [Event.newTracerProvider .AlwaysSample (fn.run env w).1.1 c.resource,
          Event.setTracerProvider
            (sdktrace.NewTracerProvider .AlwaysSample (fn.run env w).1.1 c.resource)]) = [] ∧
      otlpBodyRuns (match (fn.run env w).1.2 with
       | some _ => []
       | none =>
         [Event.newTracerProvider .AlwaysSample (fn.run env w).1.1 c.resource,
          Event.setTracerProvider
            (sdktrace.NewTracerProvider .AlwaysSample (fn.run env w).1.1 c.resource)]) = [] := by
    cases (fn.run env w).1.2 <;> exact ⟨rfl, rfl, rfl⟩
  have hfc := hfac _ htail.2.1
  have hback : ∀ b ∈ c.backends env, b = (c.Honeycomb.IsConfigured, .ofHoneycomb c.Honeycomb) ∨
      b = (c.Jaeger.IsConfigured, .ofJaeger c.Jaeger) ∨
      b = (c.OTLP.IsConfigured env, .ofOTLP c.OTLP) ∨
      b = (c.Stackdriver.IsConfigured, .ofStackdriver c.Stackdriver) := by
    intro b hb
    simpa [Config.backends] using hb
  refine ⟨fn, _, hfn, hlog, hinv _ htail.1, ?_, hfc, ?_, ?_, hotlp _ htail.2.2, rfl⟩
  · intro b _ hne hm
    rw [hinv _ htail.1, List.mem_singleton] at hm
    exact hne hm
  · intro endpoint res hin
    have hin2 : Event.jaegerNewRawExporter endpoint res ∈ fn.bodyCalls env := by
      rw [← hfc]
      exact List.mem_filter.mpr ⟨hin, rfl⟩
    cases fn with
    | ofJaeger j =>
      rcases hback _ hmem with hb | hb | hb | hb <;>
        simp only [Prod.mk.injEq, reduceCtorEq, and_false] at hb
      rw [hb.2]
    | ofHoneycomb x => simp [ExporterFn.bodyCalls] at hin2
    | ofOTLP o => simp [ExporterFn.bodyCalls] at hin2
    | ofStackdriver s => simp [ExporterFn.bodyCalls] at hin2
  · intro projectID hin
    have hin2 : Event.stackdriverNewExporter projectID ∈ fn.bodyCalls env := by
      rw [← hfc]
      exact List.mem_filter.mpr ⟨hin, rfl⟩
    cases fn with
    | ofStackdriver s =>
      rcases hback _ hmem with hb | hb | hb | hb <;>
        simp only [Prod.mk.injEq, reduceCtorEq, and_false] at hb
      rw [hb.2]
    | ofHoneycomb x => simp [ExporterFn.bodyCalls] at hin2
    | ofOTLP o => simp [ExporterFn.bodyCalls] at hin2
    | ofJaeger j => simp [ExporterFn.bodyCalls] at hin2

/-- An instance of C1: Honeycomb and Stackdriver are both configured. -/
theorem C1_prepare_invokes_first_configured_witness :
    (sampleConfig.Honeycomb.IsConfigured = true ∨ sampleConfig.Jaeger.IsConfigured = true ∨
      sampleConfig.OTLP.IsConfigured sampleEnv = true ∨
      sampleConfig.Stackdriver.IsConfigured = true) ∧
    ∃ fn new, sampleConfig.firstConfigured sampleEnv = some fn ∧
      (sampleConfig.Prepare sampleEnv freshWorld).2.log = freshWorld.log ++ new ∧
      invokedFactories new = [fn] ∧
      (∀ b ∈ sampleConfig.backends sampleEnv, b.2 ≠ fn → b.2 ∉ invokedFactories new) ∧
      factoryCalls new = fn.bodyCalls sampleEnv ∧
      (∀ endpoint res, Event.jaegerNewRawExporter endpoint res ∈ new →
        fn = .ofJaeger sampleConfig.Jaeger) ∧
      (∀ projectID, Event.stackdriverNewExporter projectID ∈ new →
        fn = .ofStackdriver sampleConfig.Stackdriver) ∧
      otlpBodyRuns new = fn.otlpReceivers ∧
      new = .exporterInvoked fn :: (fn.bodyCalls sampleEnv ++
        (match (fn.run sampleEnv freshWorld).1.2 with
         | some _ => []
         | none =>
           [.newTracerProvider .AlwaysSample (fn.run sampleEnv freshWorld).1.1
              sampleConfig.resource,
            .setTracerProvider
              (sdktrace.NewTracerProvider .AlwaysSample (fn.run sampleEnv freshWorld).1.1
                sampleConfig.resource)])) :=
  ⟨Or.inl (by decide),
    C1_prepare_invokes_first_configured sampleEnv sampleConfig freshWorld (Or.inl (by decide))⟩

/-- C4: when the exporter factory of the backend selected by
`Config.Prepare` returns an error `e`, `TraceProvider` returns `(nil, e)` and
`Prepare` returns that same `e`.  The calls `Prepare` adds to the log are then
the call of `exporter()` on the selected factory and the calls of that
factory's own body, and nothing else: no other factory is called at
`exporter()`, no body of a later backend runs, no tracer provider is built or
registered.  The global tracer provider and the flag `Configured` keep the
values they had before the call. -/
theorem C4_factory_error_is_propagated (env : Env) (c : Config) (w : World)
    (fn : ExporterFn) (e : GoError)
    (hsel : c.firstConfigured env = some fn)
    (herr : (fn.run env (w.emit (.exporterInvoked fn))).1.2 = some e) :
    (c.TraceProvider env fn w).1 = (none, some e) ∧
    (c.Prepare env w).1 = .returned (some e) ∧
    (∃ new, (c.Prepare env w).2.log = w.log ++ new ∧ invokedFactories new = [fn] ∧
      registeredProviders new = [] ∧
      factoryCalls new = fn.bodyCalls env ∧
      new = .exporterInvoked fn :: fn.bodyCalls env) ∧
    (c.Prepare env w).2.globalProvider = w.globalProvider ∧
    (c.Prepare env w).2.Configured = w.Configured := by
  rw [ExporterFn.run_result env fn _ w] at herr
  have htp := Config.TraceProvider_spec env c fn w
  have hp := Config.Prepare_selected env c w fn hsel
  rw [herr] at htp hp
  simp only at htp hp
  rw [htp, hp]
  refine ⟨rfl, rfl, ⟨_, rfl, ?_, ?_, ?_, rfl⟩, rfl, rfl⟩
  · rw [show Event.exporterInvoked fn :: fn.bodyCalls env
        = [Event.exporterInvoked fn] ++ fn.bodyCalls env from rfl,
      invokedFactories_append, ExporterFn.bodyCalls_invoked]
    rfl
  · rw [show Event.exporterInvoked fn :: fn.bodyCalls env
        = [Event.exporterInvoked fn] ++ fn.bodyCalls env from rfl,
      registeredProviders_append, ExporterFn.bodyCalls_registered]
    rfl
  · rw [show Event.exporterInvoked fn :: fn.bodyCalls env
        = [Event.exporterInvoked fn] ++ fn.bodyCalls env from rfl,
      factoryCalls_append, ExporterFn.bodyCalls_factoryCalls]
    rfl

/-- An instance of C4: Jaeger is the first configured backend and its exporter cannot be built; Stackdriver, configured too, is not tried. -/
theorem C4_factory_error_is_propagated_witness :
    (jaegerConfig.firstConfigured sampleEnv = some (.ofJaeger jaegerConfig.Jaeger) ∧
      ((ExporterFn.ofJaeger jaegerConfig.Jaeger).run sampleEnv
        (freshWorld.emit (.exporterInvoked (.ofJaeger jaegerConfig.Jaeger)))).1.2
        = some (.wrapped "failed to create jaeger exporter: "
            (.base "collector endpoint unreachable"))) ∧
    jaegerConfig.Stackdriver.IsConfigured = true ∧
    (jaegerConfig.Prepare sampleEnv freshWorld).1
      = .returned (some (.wrapped "failed to create jaeger exporter: "
          (.base "collector endpoint unreachable"))) ∧
    (∃ new, (jaegerConfig.Prepare sampleEnv freshWorld).2.log = freshWorld.log ++ new ∧
      invokedFactories new = [.ofJaeger jaegerConfig.Jaeger] ∧
      registeredProviders new = [] ∧
      factoryCalls new = (ExporterFn.ofJaeger jaegerConfig.Jaeger).bodyCalls sampleEnv ∧
      new = .exporterInvoked (.ofJaeger jaegerConfig.Jaeger) ::
        (ExporterFn.ofJaeger jaegerConfig.Jaeger).bodyCalls sampleEnv) ∧
    (jaegerConfig.Prepare sampleEnv freshWorld).2.Configured = freshWorld.Configured :=
  have h := C4_factory_error_is_propagated sampleEnv jaegerConfig freshWorld
    (.ofJaeger jaegerConfig.Jaeger)
    (.wrapped "failed to create jaeger exporter: " (.base "collector endpoint unreachable"))
    (by decide) (by decide)
  ⟨⟨by decide, by decide⟩, by decide, h.2.1, h.2.2.1, h.2.2.2.2⟩

/-- C5, as the spec has it, fails: in a fresh process
`ConfigureTraceProvider(otel.GetTracerProvider())`, the default instance of
the SDK handed back to it, makes `otel.SetTracerProvider` panic, and
`Configured` is still false afterwards. -/
theorem C5_default_provider_counterexample :
    freshWorld.globalProvider = .globalDefault ∧
    (ConfigureTraceProvider .globalDefault freshWorld).1 = .panicked ∧
    (ConfigureTraceProvider .globalDefault freshWorld).2.Configured = false := by
  refine ⟨by decide, by decide, by decide⟩

/-- C5, amended: `ConfigureTraceProvider(tp)` returns, registers `tp` as the
global tracer provider and sets `Configured` to true, for every `tp` and every
state but one: `tp` is the default instance of the SDK and nothing has been
handed to `otel.SetTracerProvider` before.  `Config.Prepare` hands it a
provider it has just built, never that instance, and does not panic; so
whenever it returns nil for a Config with at least one backend configured,
`Configured` is true afterwards and the global tracer provider is the one
registered by that call: the provider `sdktrace.NewTracerProvider` built from
the exporter that the selected backend's factory returned and from the
resource of the Config. -/
theorem C5_configure_registers_provider (env : Env) (c : Config) (w : World)
    (tp : TracerProvider) :
    (¬ (w.otel = .initial ∧ tp = .globalDefault) →
      (ConfigureTraceProvider tp w).1 = .returned () ∧
      (ConfigureTraceProvider tp w).2.globalProvider = tp ∧
      (ConfigureTraceProvider tp w).2.Configured = true ∧
      (ConfigureTraceProvider tp w).2.log = w.log ++ [.setTracerProvider tp]) ∧
    (c.Prepare env w).1 ≠ .panicked ∧
    ((c.Honeycomb.IsConfigured = true ∨ c.Jaeger.IsConfigured = true ∨
        c.OTLP.IsConfigured env = true ∨ c.Stackdriver.IsConfigured = true) →
      (c.Prepare env w).1 = .returned none →
      ∃ fn, c.firstConfigured env = some fn ∧
        (c.Prepare env w).2.Configured = true ∧
        (c.Prepare env w).2.globalProvider =
          sdktrace.NewTracerProvider .AlwaysSample
            (fn.run env (w.emit (.exporterInvoked fn))).1.1 c.resource ∧
        registeredProviders ((c.Prepare env w).2.log.drop w.log.length) =
          [sdktrace.NewTracerProvider .AlwaysSample
            (fn.run env (w.emit (.exporterInvoked fn))).1.1 c.resource]) := by
  refine ⟨?_, ?_, ?_⟩
  · intro h
    rw [ConfigureTraceProvider_returns tp w h]
    exact ⟨rfl, rfl, rfl, rfl⟩
  · cases hsel : c.firstConfigured env with
    | none =>
      rw [Config.Prepare_eq, hsel]
      exact fun hh => Exit.noConfusion hh
    | some fn =>
      rw [Config.Prepare_selected env c w fn hsel]
      cases (fn.run env w).1.2 <;> exact fun hh => Exit.noConfusion hh
  · intro h hnil
    obtain ⟨fn, hfn⟩ := Config.firstConfigured_isSome env c
      ((Config.anyConfigured_iff env c).mpr h)
    refine ⟨fn, hfn, ?_⟩
    rw [ExporterFn.run_result env fn _ w]
    rw [Config.Prepare_selected env c w fn hfn] at hnil ⊢
    cases herr : (fn.run env w).1.2 with
    | some e =>
      rw [herr] at hnil
      simp at hnil
    | none =>
      refine ⟨rfl, rfl, ?_⟩
      simp only [List.drop_left]
      rw [show Event.exporterInvoked fn :: (fn.bodyCalls env ++
            [Event.newTracerProvider .AlwaysSample (fn.run env w).1.1 c.resource,
             Event.setTracerProvider (.sdk .AlwaysSample (fn.run env w).1.1 c.resource)])
          = [Event.exporterInvoked fn] ++ (fn.bodyCalls env ++
            [Event.newTracerProvider .AlwaysSample (fn.run env w).1.1 c.resource,
             Event.setTracerProvider (.sdk .AlwaysSample (fn.run env w).1.1 c.resource)])
          from rfl,
        registeredProviders_append, registeredProviders_append,
        ExporterFn.bodyCalls_registered]
      rfl

/-- An instance of C5 as amended: a provider other than the default instance is registered in a fresh process, and `Prepare` succeeds on a Config with Honeycomb configured. -/
theorem C5_configure_registers_provider_witness :
    (¬ (freshWorld.otel = .initial ∧ TracerProvider.custom 1 = .globalDefault) ∧
      sampleConfig.Honeycomb.IsConfigured = true ∧
      (sampleConfig.Prepare sampleEnv freshWorld).1 = .returned none) ∧
    ((ConfigureTraceProvider (.custom 1) freshWorld).1 = .returned () ∧
      (ConfigureTraceProvider (.custom 1) freshWorld).2.globalProvider = .custom 1 ∧
      (ConfigureTraceProvider (.custom 1) freshWorld).2.Configured = true ∧
      (ConfigureTraceProvider (.custom 1) freshWorld).2.log
        = freshWorld.log ++ [.setTracerProvider (.custom 1)]) ∧
    ∃ fn, sampleConfig.firstConfigured sampleEnv = some fn ∧
      (sampleConfig.Prepare sampleEnv freshWorld).2.Configured = true ∧
      (sampleConfig.Prepare sampleEnv freshWorld).2.globalProvider =
        sdktrace.NewTracerProvider .AlwaysSample
          (fn.run sampleEnv (freshWorld.emit (.exporterInvoked fn))).1.1
          sampleConfig.resource ∧
      registeredProviders
          ((sampleConfig.Prepare sampleEnv freshWorld).2.log.drop freshWorld.log.length) =
        [sdktrace.NewTracerProvider .AlwaysSample
          (fn.run sampleEnv (freshWorld.emit (.exporterInvoked fn))).1.1
          sampleConfig.resource] :=
  have h := C5_configure_registers_provider sampleEnv sampleConfig freshWorld (.custom 1)
  ⟨⟨by decide, by decide, by decide⟩,
    h.1 (by decide), h.2.2 (Or.inl (by decide)) (by decide)⟩

/-- C2: while `Configured` is false, each of `StartSpan`,
`StartSpanFollowing` and `StartSpanLinkedToFollowing` returns `NoopSpan` as its
span, for every context, carrier, component name and attribute map, and none
of the calls it makes asks the global tracer provider for a tracer or starts
a span on it. -/
theorem C2_unconfigured_start_returns_noop (env : Env) (w : World) (ctx : Context)
    (following : WithSpanContext) (component : String) (attrs : Attrs)
    (h : w.Configured = false) :
    ((StartSpan env ctx component attrs w).1.2 = env.NoopSpan ∧
      ∃ new, (StartSpan env ctx component attrs w).2.log = w.log ++ new ∧
        ∀ e ∈ new, e.usesTracerProvider = false) ∧
    ((StartSpanFollowing env ctx following component attrs w).1.2 = env.NoopSpan ∧
      ∃ new, (StartSpanFollowing env ctx following component attrs w).2.log = w.log ++ new ∧
        ∀ e ∈ new, e.usesTracerProvider = false) ∧
    ((StartSpanLinkedToFollowing env ctx following component attrs w).1.2 = env.NoopSpan ∧
      ∃ new,
        (StartSpanLinkedToFollowing env ctx following component attrs w).2.log = w.log ++ new ∧
        ∀ e ∈ new, e.usesTracerProvider = false) := by
  refine ⟨?_, ?_, ?_⟩
  · refine ⟨by simp [StartSpan, startSpan, h], [], by simp [StartSpan, startSpan, h], ?_⟩
    intro e he
    cases he
  · cases hs : following.SpanContext with
    | none =>
      refine ⟨by simp [StartSpanFollowing, startSpan, h, hs], [],
        by simp [StartSpanFollowing, startSpan, h, hs], ?_⟩
      intro e he
      cases he
    | some supplier =>
      refine ⟨by simp [StartSpanFollowing, startSpan, h, hs, World.emit],
        [.extract ctx supplier],
        by simp [StartSpanFollowing, startSpan, h, hs, World.emit], ?_⟩
      intro e he
      rw [List.mem_singleton] at he
      subst he
      rfl
  · cases hs : following.SpanContext with
    | none =>
      refine ⟨by simp [StartSpanLinkedToFollowing, startSpan, h, hs, World.emit],
        [.spanFromContext ctx, .spanSpanContext (env.spanFromContext ctx)],
        by simp [StartSpanLinkedToFollowing, startSpan, h, hs, World.emit], ?_⟩
      intro e he
      simp only [List.mem_cons, List.mem_singleton, List.not_mem_nil, or_false] at he
      rcases he with he | he <;> subst he <;> rfl
    | some supplier =>
      refine ⟨by simp [StartSpanLinkedToFollowing, startSpan, h, hs, World.emit],
        [.extract .Background supplier, .spanFromContext ctx,
          .spanSpanContext (env.spanFromContext ctx)],
        by simp [StartSpanLinkedToFollowing, startSpan, h, hs, World.emit], ?_⟩
      intro e he
      simp only [List.mem_cons, List.mem_singleton, List.not_mem_nil, or_false] at he
      rcases he with he | he | he <;> subst he <;> rfl

/-- An instance of C2: `StartSpanLinkedToFollowing` in a world where tracing is not configured. -/
theorem C2_unconfigured_start_returns_noop_witness :
    freshWorld.Configured = false ∧
    (StartSpanLinkedToFollowing sampleEnv .Background sampleFollowing "build" [("team", "main")]
      freshWorld).1.2 = sampleEnv.NoopSpan :=
  ⟨rfl, (C2_unconfigured_start_returns_noop sampleEnv freshWorld .Background sampleFollowing
    "build" [("team", "main")] rfl).2.2.1⟩

/-- C3, as the spec has it, fails: with `Configured` false,
`StartSpanFollowing` on the background context and a `following` whose carrier
holds a valid `traceparent` returns the context `Extract` derived from it, not
the context it was given. -/
theorem C3_following_context_counterexample :
    freshWorld.Configured = false ∧
    sampleFollowing.SpanContext ≠ none ∧
    (StartSpanFollowing sampleEnv .Background sampleFollowing "build" [] freshWorld).1.1
      = .WithRemoteSpanContext .Background
          ⟨"4bf92f3577b34da6a3ce929d0e0e4736", "00f067aa0ba902b7", "01"⟩ ∧
    (StartSpanFollowing sampleEnv .Background sampleFollowing "build" [] freshWorld).1.1
      ≠ .Background := by
  refine ⟨rfl, by decide, by decide, by decide⟩

/-- C3, amended: while `Configured` is false, `StartSpan` returns exactly
the context it was given, for every context, component name and attribute
map; `StartSpanFollowing` returns the context it was given when the
`SpanContext()` carrier of `following` is nil, and when the carrier is not nil
it returns the context that `propagation.TraceContext.Extract` derives from the
given context and that carrier.  Neither starts a span. -/
theorem C3_unconfigured_start_context (env : Env) (w : World) (ctx : Context)
    (following : WithSpanContext) (component : String) (attrs : Attrs)
    (h : w.Configured = false) :
    (StartSpan env ctx component attrs w).1.1 = ctx ∧
    (following.SpanContext = none →
      (StartSpanFollowing env ctx following component attrs w).1.1 = ctx) ∧
    (∀ supplier, following.SpanContext = some supplier →
      (StartSpanFollowing env ctx following component attrs w).1.1
        = env.extract ctx supplier) ∧
    (∀ e ∈ (StartSpan env ctx component attrs w).2.log.drop w.log.length,
      e.usesTracerProvider = false) ∧
    (∀ e ∈ (StartSpanFollowing env ctx following component attrs w).2.log.drop w.log.length,
      e.usesTracerProvider = false) := by
  refine ⟨by simp [StartSpan, startSpan, h], ?_, ?_, ?_, ?_⟩
  · intro hs
    simp [StartSpanFollowing, startSpan, h, hs]
  · intro supplier hs
    simp [StartSpanFollowing, startSpan, h, hs, World.emit]
  · intro e he
    simp [StartSpan, startSpan, h] at he
  · intro e he
    cases hs : following.SpanContext with
    | none => simp [StartSpanFollowing, startSpan, h, hs] at he
    | some supplier =>
      simp [StartSpanFollowing, startSpan, h, hs, World.emit] at he
      subst he
      rfl

/-- An instance of C3 as amended: `StartSpanFollowing` with a carrier that is not nil returns the extracted context. -/
theorem C3_unconfigured_start_context_witness :
    (freshWorld.Configured = false ∧
      sampleFollowing.SpanContext = some
        [("traceparent", "00-4bf92f3577b34da6a3ce929d0e0e4736-00f067aa0ba902b7-01")]) ∧
    (StartSpanFollowing sampleEnv (.WithValue .Background "build" "42") sampleFollowing
        "build" [] freshWorld).1.1
      = sampleEnv.extract (.WithValue .Background "build" "42")
          [("traceparent", "00-4bf92f3577b34da6a3ce929d0e0e4736-00f067aa0ba902b7-01")] :=
  ⟨⟨rfl, rfl⟩,
    (C3_unconfigured_start_context sampleEnv freshWorld (.WithValue .Background "build" "42")
      sampleFollowing "build" [] rfl).2.2.1 _ rfl⟩

/-- C7: `End(span, err)`, for every span and error.  If `Configured` is
false no call is made at all, so no method of `span` is invoked.  If
`Configured` is true the calls made are, in this order, when `err` is not nil
`span.SetStatus(codes.Error, "")`, then `span.SetAttributes` with the single
attribute `error-message` = `err.Error()`, then `span.End()`; and when `err`
is nil `span.End()` alone. -/
theorem C7_end_calls (span : Span) (err : Option GoError) (w : World) :
    (w.Configured = false → End span err w = w) ∧
    (w.Configured = true →
      (∀ e, err = some e →
        (End span err w).log = w.log ++
          [.spanSetStatus span .Error "",
           .spanSetAttributes span [attribute.String "error-message" e.Error],
           .spanEnd span]) ∧
      (err = none → (End span err w).log = w.log ++ [.spanEnd span]) ∧
      (End span err w).Configured = true ∧
      (End span err w).globalProvider = w.globalProvider) := by
  refine ⟨fun h => by simp [End, h], fun h => ⟨?_, ?_, ?_, ?_⟩⟩
  · intro e he
    subst he
    simp [End, h, World.emit]
  · intro he
    subst he
    simp [End, h, World.emit]
  · cases err <;> simp [End, h, World.emit]
  · cases err <;> simp [End, h, World.emit, World.globalProvider]

/-- An instance of C7: `End` with an error, after a provider has been configured. -/
theorem C7_end_calls_witness :
    configuredWorld.Configured = true ∧
    (End ⟨7⟩ (some (.base "boom")) configuredWorld).log =
      configuredWorld.log ++
        [.spanSetStatus ⟨7⟩ .Error "",
         .spanSetAttributes ⟨7⟩ [attribute.String "error-message" (GoError.base "boom").Error],
         .spanEnd ⟨7⟩] :=
  ⟨by decide, ((C7_end_calls ⟨7⟩ (some (.base "boom")) configuredWorld).2
    (by decide)).1 (.base "boom") rfl⟩

/-- C10: the flag `Configured` is monotone.  No operation of the package
(`Prepare`, `TraceProvider`, `ConfigureTraceProvider`, `StartSpan`,
`StartSpanFollowing`, `StartSpanLinkedToFollowing`, `End`, `Inject`,
`FromContext`) takes a world with `Configured` true to one with `Configured`
false, whether it returns or panics, so after any sequence of operations from
such a world, and in particular after any sequence that follows a
`ConfigureTraceProvider` that returned, `Configured` is true. -/
theorem C10_configured_is_monotone (env : Env) :
    (∀ (op : Op) (w : World), w.Configured = true → (op.step env w).Configured = true) ∧
    (∀ (ops : List Op) (w : World), w.Configured = true → (run env ops w).Configured = true) ∧
    (∀ (tp : TracerProvider) (ops : List Op) (w : World),
      (ConfigureTraceProvider tp w).1 = .returned () →
      (run env ops (ConfigureTraceProvider tp w).2).Configured = true) := by
  refine ⟨Op.step_Configured env, run_Configured env, ?_⟩
  intro tp ops w hret
  apply run_Configured env ops
  by_cases hc : w.otel = .initial ∧ tp = .globalDefault
  · obtain ⟨ho, ht⟩ := hc
    subst ht
    rw [ConfigureTraceProvider_panics w ho] at hret
    exact Exit.noConfusion hret
  · rw [ConfigureTraceProvider_returns tp w hc]

/-- An instance of C10: a failing `Prepare`, a span start and end, a `Prepare` without backend and a refused `ConfigureTraceProvider`, after a provider has been configured. -/
theorem C10_configured_is_monotone_witness :
    configuredWorld.Configured = true ∧
    (run sampleEnv
      [.Prepare jaegerConfig, .StartSpan .Background "build" [("team", "main")],
        .End ⟨7⟩ (some (.base "boom")), .Prepare noBackendConfig,
        .ConfigureTraceProvider .globalDefault]
      configuredWorld).Configured = true :=
  ⟨by decide, (C10_configured_is_monotone sampleEnv).2.1 _ _ (by decide)⟩

end Tracing
